import Mathlib

/-!
Verification of the RepoLens repository assessment engine (src/app.py)
against its natural-language specification.

The embedding models:
* the heuristic detectors `detect_readme`, `detect_tests`, `detect_structure`
  (pure functions over a listing of snapshot-relative file paths);
* the deterministic feedback generator `fallback_feedback`;
* the metadata client `github_repo_info` / `github_commit_count`, with the
  HTTP layer abstracted as an oracle value: `Except TransportErr r` is either
  a transport-level exception raised by the HTTP call (`requests.get` raising,
  e.g. on timeout or an unreachable host) or a delivered response `r` carrying
  its success flag `ok` and parsed body;
* the orchestrator `build_analysis` / `analyze`, with exception propagation
  made explicit via `Except`, and a flag recording whether the
  temporary-directory release on the line after feedback generation ran.
-/

namespace RepoLens

/-- Python `str.capitalize()`: first character uppercased, the rest lowercased. -/
def pyCapitalize (s : String) : String :=
  match s.data with
  | [] => ""
  | c :: cs => String.mk (c.toUpper :: cs.map Char.toLower)

/-- Python `str.strip()`: leading and trailing whitespace removed. -/
def pyStrip (s : String) : String :=
  String.mk
    (((s.data.dropWhile Char.isWhitespace).reverse.dropWhile Char.isWhitespace).reverse)

/-- Python `str.lower()`. -/
def pyLower (s : String) : String :=
  String.mk (s.data.map Char.toLower)

/-- Python `str.startswith(pre)`. -/
def pyStartsWith (s pre : String) : Bool :=
  pre.data.isPrefixOf s.data

/-- Python `str.endswith(suf)`. -/
def pyEndsWith (s suf : String) : Bool :=
  suf.data.isSuffixOf s.data

/-- One entry of the `FileListing`, as a path relative to the snapshot root
(`TEMP_DIR`): `dirs` are the intervening directory components, `filename` the
basename.  `content` is the file's decoded content (`bytes.decode` with
`errors="ignore"` never fails, so a successful read always yields a string);
`none` models the read raising (the `except` branch of `detect_readme`). -/
structure SrcFile where
  dirs : List String
  filename : String
  content : Option String
deriving Repr, DecidableEq

/-- The README-name test of `detect_readme` (src/app.py line 216), applied to
the lowercased basename. -/
def isReadmeName (name : String) : Bool :=
  name = "readme" || pyStartsWith name "readme."

/-- `detect_readme` (src/app.py lines 202-229): scan the listing in order; skip
files not at the snapshot root (`os.sep in rel_path`); at the first root-level
README candidate, read it: a read error yields `(false, false)`, trimmed
content shorter than 50 characters yields `(false, false)`, otherwise
`(true, true)`.  No candidate yields `(false, false)`. -/
def detect_readme : List SrcFile → Bool × Bool
  | [] => (false, false)
  | f :: rest =>
    if f.dirs ≠ [] then detect_readme rest
    else if isReadmeName (pyLower f.filename) then
      match f.content with
      | none => (false, false)
      | some c => if (pyStrip c).length < 50 then (false, false) else (true, true)
    else detect_readme rest

/-- The first root-level README candidate in listing order (the file at which
the loop of `detect_readme` returns), when one exists. -/
def firstReadmeCandidate : List SrcFile → Option SrcFile
  | [] => none
  | f :: rest =>
    if f.dirs ≠ [] then firstReadmeCandidate rest
    else if isReadmeName (pyLower f.filename) then some f
    else firstReadmeCandidate rest

def TEST_DIRS : List String := ["tests", "__tests__", "test", "spec"]

def TEST_FILE_SUFFIXES : List String :=
  ["_test.py", "test_.py", ".test.js", ".spec.js", ".test.ts", ".spec.ts",
   "_test.go", "_test.rs"]

def TEST_CONFIGS : List String :=
  ["pytest.ini", "tox.ini", "jest.config.js", "jest.config.ts",
   "vitest.config.ts", "mocha.opts", "phpunit.xml"]

/-- `detect_tests` (src/app.py lines 231-263): true iff some file sits under a
test directory (any path component except the basename, lowercased, in
`TEST_DIRS`), or its lowercased basename ends with a test suffix, or equals a
known test-framework configuration filename. -/
def detect_tests (files : List SrcFile) : Bool :=
  files.any fun f =>
    let name := pyLower f.filename
    f.dirs.any (fun part => TEST_DIRS.contains (pyLower part))
      || TEST_FILE_SUFFIXES.any (fun suf => pyEndsWith name suf)
      || TEST_CONFIGS.contains name

/-- The set of first-level directory names of `detect_structure`
(src/app.py lines 267-271): `f.replace(TEMP_DIR, "").split(os.sep)` yields
`"" :: dirs ++ [filename]`, so `parts[1]` is added exactly when the file has at
least one directory component, and it is the first such component. -/
def topDirs (files : List SrcFile) : List String :=
  files.filterMap fun f => f.dirs.head?

/-- The integer score of `detect_structure` (src/app.py lines 273-278). -/
def structScore (files : List SrcFile) : Nat :=
  (if (topDirs files).contains "src" then 1 else 0)
    + (if (topDirs files).contains "tests" then 1 else 0)
    + (if (topDirs files).contains "docs" then 1 else 0)
    + (if files.length > 10 then 1 else 0)

/-- `detect_structure` (src/app.py lines 266-284). -/
def detect_structure (files : List SrcFile) : String :=
  if structScore files ≥ 3 then "clean"
  else if structScore files = 2 then "moderate"
  else "basic"

/-- The analysis dictionary built by `build_analysis` (src/app.py lines
296-305), input of `fallback_feedback`. -/
structure Analysis where
  filesCount : Nat
  structureClass : String
  readme : Bool
  readme_content : Bool
  tests : Bool
  commits : Nat
  stars : Nat
  language : String
deriving Repr, DecidableEq

/-- `fallback_feedback` (src/app.py lines 309-355), the deterministic feedback
generator: sequential score accumulation from base 40 and rule-ordered roadmap
appends, mirrored statement by statement; returns
`(summary, roadmap[:7], min(score, 100))`. -/
def fallback_feedback (a : Analysis) : String × List String × Int :=
  let s0 : Int := 40
  let r0 : List String := []
  let s1 := if a.structureClass = "clean" then s0 + 15
            else if a.structureClass = "moderate" then s0 + 8
            else s0
  let r1 := if a.structureClass = "clean" then r0
            else if a.structureClass = "moderate" then r0
            else r0 ++ ["Improve project structure (src/, tests/, docs/)"]
  let s2 := if a.readme then s1 + 10 else s1
  let r2 := if a.readme then
              (if a.readme_content then r1
               else r1 ++ ["Expand README with setup, usage, and examples"])
            else r1 ++ ["Add a comprehensive README"]
  let r3 := if ¬ a.readme then
              r2 ++ ["Add a README with project overview, setup instructions, and usage examples"]
            else if ¬ a.readme_content then
              r2 ++ ["Improve README with clearer documentation and examples"]
            else r2
  let s3 := if a.tests then s2 + 15 else s2
  let r4 := if a.tests then r3 else r3 ++ ["Add unit and integration tests"]
  let s4 := if a.commits > 50 then s3 + 10 else s3
  let r5 := if a.commits > 50 then r4
            else if a.commits < 10 then
              r4 ++ ["Commit more frequently with meaningful messages"]
            else r4
  let s5 := if a.stars > 20 then s4 + 5 else s4
  let summary :=
    pyCapitalize a.structureClass ++ " " ++ a.language ++ " project "
      ++ (if a.readme then "with" else "without") ++ " documentation "
      ++ "and " ++ (if a.tests then "with" else "without") ++ " tests."
  let r6 := if r5 = [] then ["Prepare the project for open-source contributions"] else r5
  (summary, r6.take 7, min s5 100)

/-- The spec's score formula (§4.2) with the implementation's base 40:
base plus the fixed increments, before the upper clamp. -/
def spec_score (a : Analysis) : Int :=
  40 + (if a.structureClass = "clean" then 15
        else if a.structureClass = "moderate" then 8 else 0)
     + (if a.readme then 10 else 0)
     + (if a.tests then 15 else 0)
     + (if a.commits > 50 then 10 else 0)
     + (if a.stars > 20 then 5 else 0)

/-- A transport-level exception raised by an HTTP call (`requests.get` raising,
e.g. `requests.Timeout` or a connection error).  src/app.py wraps no HTTP call
in `try`, so such exceptions propagate out of the function that made the call. -/
inductive TransportErr where
  | timeout
  | unreachable
deriving Repr, DecidableEq

/-- The parsed JSON body of the repository-info endpoint, restricted to the two
fields `build_analysis` reads (`.get` with defaults covers absence). -/
structure InfoDict where
  stargazers_count : Option Nat
  language : Option String
deriving Repr, DecidableEq

/-- A delivered HTTP response for the repository-info endpoint: success flag
(`r.ok`) and parsed body (`r.json()`). -/
structure InfoResp where
  ok : Bool
  body : InfoDict
deriving Repr, DecidableEq

/-- The empty dict `{}` returned by `github_repo_info` on a non-success
response. -/
def emptyInfo : InfoDict := ⟨none, none⟩

/-- `github_repo_info` (src/app.py lines 169-171): `requests.get` raising
propagates (nothing catches it); a delivered response yields its body when
`r.ok`, else `{}`. -/
def github_repo_info (r : Except TransportErr InfoResp) :
    Except TransportErr InfoDict :=
  match r with
  | .error e => .error e
  | .ok resp => .ok (if resp.ok then resp.body else emptyInfo)

/-- A delivered HTTP response for one page of the commit-listing endpoint:
success flag and the length of the JSON array body. -/
structure CommitsResp where
  ok : Bool
  commits : Nat
deriving Repr, DecidableEq

/-- The `while` loop of `github_commit_count` (src/app.py lines 176-185) over
the successive page responses: a raising `requests.get` propagates; a
non-success or empty page breaks, returning the total so far; otherwise the
page length is accumulated.  An exhausted oracle list stands for all further
pages being empty. -/
def commit_pages_loop :
    List (Except TransportErr CommitsResp) → Nat → Except TransportErr Nat
  | [], total => .ok total
  | .error e :: _, _ => .error e
  | .ok r :: rest, total =>
    if r.ok = false ∨ r.commits = 0 then .ok total
    else commit_pages_loop rest (total + r.commits)

/-- `github_commit_count` (src/app.py lines 173-186). -/
def github_commit_count (pages : List (Except TransportErr CommitsResp)) :
    Except TransportErr Nat :=
  commit_pages_loop pages 0

/-- `Repo.clone_from` raising `GitCommandError` on an unreachable or invalid
URL (src/app.py line 192). -/
inductive CloneErr where
  | unreachableUrl
deriving Repr, DecidableEq

/-- An exception escaping `build_analysis`. -/
inductive PipeErr where
  | transport (e : TransportErr)
  | clone (e : CloneErr)
deriving Repr, DecidableEq

/-- `build_analysis` (src/app.py lines 286-305): metadata fetch, commit count,
clone, file walk, detectors, in source order; every exception propagates
(no `try` anywhere on the path).  The HTTP and clone outcomes are oracle
parameters; `files` is the listing the walk produces when the clone
succeeded. -/
def build_analysis (infoR : Except TransportErr InfoResp)
    (pages : List (Except TransportErr CommitsResp))
    (cloneR : Except CloneErr Unit) (files : List SrcFile) :
    Except PipeErr Analysis :=
  match github_repo_info infoR with
  | .error e => .error (.transport e)
  | .ok info =>
    match github_commit_count pages with
    | .error e => .error (.transport e)
    | .ok commits =>
      match cloneR with
      | .error e => .error (.clone e)
      | .ok _ =>
        let rd := detect_readme files
        .ok ⟨files.length, detect_structure files, rd.1, rd.2,
             detect_tests files, commits,
             info.stargazers_count.getD 0, info.language.getD "Unknown"⟩

/-- `analyze` (src/app.py lines 363-375).  The route body has no `try`/
`finally`: `safe_delete(TEMP_DIR)` on line 368 runs only when
`build_analysis` and `fallback_feedback` returned normally.  The `Bool`
component records whether that release ran during this request. -/
def analyze (infoR : Except TransportErr InfoResp)
    (pages : List (Except TransportErr CommitsResp))
    (cloneR : Except CloneErr Unit) (files : List SrcFile) :
    Except PipeErr (String × List String × Int) × Bool :=
  match build_analysis infoR pages cloneR files with
  | .error e => (.error e, false)
  | .ok a => (.ok (fallback_feedback a), true)

/-- Splitting a character list at every occurrence of a separator. -/
def splitOnChar (sep : Char) : List Char → List (List Char)
  | [] => [[]]
  | c :: cs =>
    if c == sep then [] :: splitOnChar sep cs
    else
      match splitOnChar sep cs with
      | [] => [[c]]
      | h :: t => (c :: h) :: t

/-- Modelled from the spec: leading-bullet-marker stripping of the generative
response parser (§4.3 step 4); the generative feedback generator is absent
from src/app.py (only the `HF_TOKEN`/`HF_API` constants exist). -/
def strip_bullet (s : String) : String :=
  pyStrip (String.mk (s.data.dropWhile fun c => c == '-' || c == '*' || c == ' '))

/-- The suffix of a line after the first occurrence of a label; `none` when
the label does not occur. -/
def afterLabel (label : String) : List Char → Option String
  | [] => none
  | c :: cs =>
    if label.data.isPrefixOf (c :: cs) then
      some (String.mk ((c :: cs).drop label.data.length))
    else afterLabel label cs

/-- Modelled from the spec: "first line containing a label" extraction of
§4.3 step 4 — the text after the label on that line, trimmed; `none` when no
line contains the label. -/
def findLabel (label : String) : List String → Option String
  | [] => none
  | l :: rest =>
    match afterLabel label l.data with
    | some r => some (pyStrip r)
    | none => findLabel label rest

/-- Modelled from the spec: the lines following the first line containing
"Roadmap" (§4.3 step 4); `none` when no such line exists. -/
def linesAfterRoadmap : List String → Option (List String)
  | [] => none
  | l :: rest =>
    if (afterLabel "Roadmap" l.data).isSome then some rest
    else linesAfterRoadmap rest

/-- Modelled from the spec: the generative response parser (§4.3 step 4),
absent from src/app.py.  Split into trimmed non-empty lines, strip bullet
markers; extract the Summary line, the Score line parsed as an integer, and
the non-empty lines after a "Roadmap" line; any absence fails the parse. -/
def parse_llm (text : String) : Option (String × Int × List String) :=
  let lines :=
    (((splitOnChar '\n' text.data).map (fun l => pyStrip (String.mk l))).filter
      (fun l => l ≠ "")).map strip_bullet
  match findLabel "Summary:" lines with
  | none => none
  | some summary =>
    match findLabel "Score:" lines with
    | none => none
    | some scoreStr =>
      match scoreStr.toInt? with
      | none => none
      | some score =>
        match linesAfterRoadmap lines with
        | none => none
        | some items =>
          let items := items.filter fun l => l ≠ ""
          if items = [] then none else some (summary, score, items)

/-- Modelled from the spec: the generative feedback generator (§4.3), absent
from src/app.py (the orchestrator always calls `fallback_feedback`; `HF_TOKEN`
defaults to `""` when unset).  With an empty credential it delegates
immediately to the deterministic generator with no network call; otherwise the
network outcome is the oracle `net`, and a transport error or parse failure
degrades to the deterministic generator.  The `Bool` component records whether
a network call was attempted. -/
def generate_feedback (token : String) (net : Except TransportErr String)
    (a : Analysis) : (String × List String × Int) × Bool :=
  if token = "" then (fallback_feedback a, false)
  else
    match net with
    | .error _ => (fallback_feedback a, true)
    | .ok text =>
      match parse_llm text with
      | none => (fallback_feedback a, true)
      | some (summary, score, roadmap) => ((summary, roadmap.take 7, score), true)

/-! ## Score lemmas -/

/-- The sequentially accumulated score of `fallback_feedback` equals the
spec's sum formula, clamped above by 100. -/
lemma fallback_score_eq (a : Analysis) :
    (fallback_feedback a).2.2 = min (spec_score a) 100 := by
  simp only [fallback_feedback, spec_score]
  split_ifs <;> omega

lemma spec_score_ge (a : Analysis) : 40 ≤ spec_score a := by
  simp only [spec_score]
  split_ifs <;> omega

lemma spec_score_le (a : Analysis) : spec_score a ≤ 95 := by
  simp only [spec_score]
  split_ifs <;> omega

/-- C2: the deterministic feedback generator is a total function — for every
`Analysis` (any structure class string, any booleans, any non-negative commit
and star counts) it returns an `Assessment` (totality is the type of
`fallback_feedback`), and the returned score is an integer in `[0, 100]`. -/
theorem fallback_feedback_total_in_range (a : Analysis) :
    0 ≤ (fallback_feedback a).2.2 ∧ (fallback_feedback a).2.2 ≤ 100 := by
  rw [fallback_score_eq]
  have h1 := spec_score_ge a
  have h2 := spec_score_le a
  omega

/-- C3: for every input, the deterministic score equals the fixed base 40 plus
exactly the documented increments (structure clean +15 / moderate +8 / basic
+0; README +10; tests +15; commits > 50 +10; stars > 20 +5), clamped to at
most 100 (the lower clamp of the `[0,100]` policy is vacuous since the sum is
at least 40); and the example {structure=basic, readme=true,
readmeHasContent=true, tests=true, commits=60, stars=25} yields score 80. -/
theorem score_composition
    (a : Analysis) :
    (fallback_feedback a).2.2 = min (spec_score a) 100 ∧
    (fallback_feedback ⟨0, "basic", true, true, true, 60, 25, "Python"⟩).2.2 = 80 := by
  refine ⟨fallback_score_eq a, ?_⟩
  decide

/-- C10: the deterministic score always lies in `[40, 95]`, and the upper
clamp `min(score, 100)` never changes the value — the returned score equals
the unclamped sum `spec_score`, whose maximum 95 makes a score of 100
unattainable. -/
theorem score_bounds_clamp_noop (a : Analysis) :
    40 ≤ (fallback_feedback a).2.2 ∧ (fallback_feedback a).2.2 ≤ 95 ∧
    (fallback_feedback a).2.2 = spec_score a := by
  have h1 := spec_score_ge a
  have h2 := spec_score_le a
  rw [fallback_score_eq]
  omega

/-! ## Roadmap construction (C4) -/

/-- The C4 example input: structure basic, no README, no tests, 3 commits,
0 stars. -/
def exBasicEmpty : Analysis := ⟨0, "basic", false, false, false, 3, 0, "Unknown"⟩

/-- C4 counterexample: on the example input the roadmap has five entries, not
the four (one per triggered rule) the claim states — the absent-README rule
contributes two entries, because `fallback_feedback` contains a second,
duplicated README block (src/app.py lines 326-330) right after the first
(lines 320-325). -/
theorem roadmap_one_per_rule_cex :
    (fallback_feedback exBasicEmpty).2.1 =
      ["Improve project structure (src/, tests/, docs/)",
       "Add a comprehensive README",
       "Add a README with project overview, setup instructions, and usage examples",
       "Add unit and integration tests",
       "Commit more frequently with meaningful messages"] ∧
    (fallback_feedback exBasicEmpty).2.1.length ≠ 4 := by
  decide

/-- C4 amended: roadmap construction is rule-ordered, but the absent-README
rule appends two entries (a duplicated block); on the example input the
deterministic generator returns score 40 and a roadmap of exactly one
structure entry, two add-README entries, one add-tests entry and one
commit-frequency entry, in that order. -/
theorem roadmap_rule_ordered_amended :
    fallback_feedback exBasicEmpty =
      ("Basic Unknown project without documentation and without tests.",
       ["Improve project structure (src/, tests/, docs/)",
        "Add a comprehensive README",
        "Add a README with project overview, setup instructions, and usage examples",
        "Add unit and integration tests",
        "Commit more frequently with meaningful messages"],
       40) := by
  decide

/-! ## Cleanup on exit paths (C5) -/

/-- C5 counterexample: when the clone stage raises (unreachable URL), the
exception propagates out of `build_analysis` before line 368 of src/app.py is
reached, and `analyze` performs no release of the temporary storage on that
request (release flag `false`) — refuting "released exactly once on every
exit path, including when an earlier stage raises". -/
theorem cleanup_every_path_cex :
    analyze (.ok ⟨true, ⟨some 0, some "Python"⟩⟩) [] (.error .unreachableUrl) [] =
      (.error (.clone .unreachableUrl), false) := rfl

/-- C5 amended: the temporary storage is released exactly once, after feedback
generation, on the successful path only; when an earlier stage raises, the
route body (which has no `try`/`finally`) performs no release for that
request — the stale directory is instead removed by `safe_delete` at the start
of the next clone. -/
theorem cleanup_success_path_only :
    (∀ infoR pages cloneR files a,
       build_analysis infoR pages cloneR files = Except.ok a →
       analyze infoR pages cloneR files = (Except.ok (fallback_feedback a), true)) ∧
    (∀ infoR pages cloneR files e,
       build_analysis infoR pages cloneR files = Except.error e →
       analyze infoR pages cloneR files = (Except.error e, false)) := by
  constructor
  · intro infoR pages cloneR files a h
    simp [analyze, h]
  · intro infoR pages cloneR files e h
    simp [analyze, h]

/-- Witness for the amended C5 theorem at concrete inputs: a completed
pipeline releases, a failed clone does not. -/
theorem cleanup_success_path_only_witness :
    analyze (.ok ⟨true, ⟨some 0, some "Py"⟩⟩) [] (.ok ()) [] =
      (.ok (fallback_feedback ⟨0, "basic", false, false, false, 0, 0, "Py"⟩), true) ∧
    analyze (.ok ⟨true, ⟨some 0, some "Py"⟩⟩) [] (.error .unreachableUrl) [] =
      (.error (.clone .unreachableUrl), false) :=
  ⟨cleanup_success_path_only.1 _ _ _ _ _ rfl,
   cleanup_success_path_only.2 _ _ _ _ _ rfl⟩

/-! ## Metadata client failure handling (C6) -/

/-- C6 counterexample: a transport-level exception of the metadata client (a
timeout raised by `requests.get`) is not recovered — `github_repo_info` and
`github_commit_count` wrap the call in no `try`, so it propagates, and the
assessment does not complete. -/
theorem metadata_transport_propagates_cex :
    github_repo_info (.error .timeout) = .error .timeout ∧
    github_commit_count [.error .timeout] = .error .timeout ∧
    (analyze (.error .timeout) [] (.ok ()) []).1 =
      .error (.transport .timeout) :=
  ⟨rfl, rfl, rfl⟩

/-- C6 amended: only a delivered non-success response is recovered locally —
repo info defaults to the empty dict, whose reads default to starCount 0 and
language "Unknown", and commit pagination accumulates page lengths until the
first non-success or empty page; a transport exception (timeout, unreachable
host) raised by the HTTP call propagates instead. -/
theorem metadata_nonsuccess_recovered :
    (∀ body, github_repo_info (.ok ⟨false, body⟩) = .ok emptyInfo) ∧
    emptyInfo.stargazers_count.getD 0 = 0 ∧
    emptyInfo.language.getD "Unknown" = "Unknown" ∧
    (∀ (r : CommitsResp) rest total, r.ok = false ∨ r.commits = 0 →
       commit_pages_loop (.ok r :: rest) total = .ok total) ∧
    (∀ (r : CommitsResp) rest total, r.ok = true → r.commits ≠ 0 →
       commit_pages_loop (.ok r :: rest) total =
         commit_pages_loop rest (total + r.commits)) ∧
    (∀ e rest total, commit_pages_loop (.error e :: rest) total = .error e) := by
  refine ⟨fun body => rfl, rfl, rfl, ?_, ?_, fun e rest total => rfl⟩
  · intro r rest total h
    simp [commit_pages_loop, h]
  · intro r rest total h1 h2
    simp [commit_pages_loop, h1, h2]

/-- Witness for the amended C6 theorem at concrete inputs. -/
theorem metadata_nonsuccess_recovered_witness :
    github_repo_info (.ok ⟨false, ⟨some 9, some "C"⟩⟩) = .ok emptyInfo ∧
    commit_pages_loop [.ok ⟨false, 5⟩] 7 = .ok 7 ∧
    commit_pages_loop [.ok ⟨true, 3⟩] 7 = commit_pages_loop [] (7 + 3) ∧
    commit_pages_loop [.error .timeout] 0 = .error .timeout :=
  ⟨metadata_nonsuccess_recovered.1 _,
   metadata_nonsuccess_recovered.2.2.2.1 _ _ _ (Or.inl rfl),
   metadata_nonsuccess_recovered.2.2.2.2.1 ⟨true, 3⟩ [] 7 rfl (by decide),
   metadata_nonsuccess_recovered.2.2.2.2.2 _ _ _⟩

/-! ## README detection (C7, C9) -/

/-- C7: for every listing whose first root-level README candidate reads
successfully, trimmed content of at most 49 characters yields
`(hasReadme, readmeHasContent) = (false, false)`, and of at least 50
characters yields `(true, true)`. -/
theorem readme_content_threshold (files : List SrcFile) (f : SrcFile)
    (c : String) (hf : firstReadmeCandidate files = some f)
    (hc : f.content = some c) :
    ((pyStrip c).length ≤ 49 → detect_readme files = (false, false)) ∧
    (50 ≤ (pyStrip c).length → detect_readme files = (true, true)) := by
  induction files with
  | nil => simp [firstReadmeCandidate] at hf
  | cons g rest ih =>
    by_cases h1 : g.dirs ≠ []
    · simp only [firstReadmeCandidate, if_pos h1] at hf
      simp only [detect_readme, if_pos h1]
      exact ih hf
    · by_cases h2 : isReadmeName (pyLower g.filename)
      · have hgf : g = f := by
          simp only [firstReadmeCandidate, if_neg h1, if_pos h2] at hf
          exact Option.some.inj hf
        subst hgf
        by_cases h3 : (pyStrip c).length < 50
        · refine ⟨fun _ => ?_, fun hlen => absurd hlen (by omega)⟩
          simp [detect_readme, h1, h2, hc, h3]
        · refine ⟨fun hlen => absurd hlen (by omega), fun _ => ?_⟩
          simp [detect_readme, h1, h2, hc, h3]
      · simp only [firstReadmeCandidate, if_neg h1, if_neg h2] at hf
        simp only [detect_readme, if_neg h1, if_neg h2]
        exact ih hf

/-- A root-level README whose trimmed content has 49 characters. -/
def readme49 : SrcFile := ⟨[], "README.md", some (String.mk (List.replicate 49 'a'))⟩

/-- A root-level README whose trimmed content has 50 characters. -/
def readme50 : SrcFile := ⟨[], "readme", some (String.mk (List.replicate 50 'a'))⟩

/-- Witness for C7 at the two boundary lengths. -/
theorem readme_content_threshold_witness :
    detect_readme [readme49] = (false, false) ∧
    detect_readme [readme50] = (true, true) :=
  ⟨(readme_content_threshold [readme49] readme49
      (String.mk (List.replicate 49 'a')) rfl rfl).1 (by decide),
   (readme_content_threshold [readme50] readme50
      (String.mk (List.replicate 50 'a')) rfl rfl).2 (by decide)⟩

/-- `detect_readme` only ever returns `(false, false)` or `(true, true)`. -/
lemma detect_readme_cases (files : List SrcFile) :
    detect_readme files = (false, false) ∨ detect_readme files = (true, true) := by
  induction files with
  | nil => left; rfl
  | cons g rest ih =>
    by_cases h1 : g.dirs ≠ []
    · simpa only [detect_readme, if_pos h1] using ih
    · by_cases h2 : isReadmeName (pyLower g.filename)
      · cases hc : g.content with
        | none => left; simp [detect_readme, h1, h2, hc]
        | some c =>
          by_cases h3 : (pyStrip c).length < 50
          · left; simp [detect_readme, h1, h2, hc, h3]
          · right; simp [detect_readme, h1, h2, hc, h3]
      · simpa only [detect_readme, if_neg h1, if_neg h2] using ih

/-- C9: for every listing, `readmeHasContent` implies `hasReadme`. -/
theorem readme_invariant (files : List SrcFile)
    (h : (detect_readme files).2 = true) : (detect_readme files).1 = true := by
  rcases detect_readme_cases files with hc | hc
  · rw [hc] at h
    exact absurd h (by decide)
  · rw [hc]

/-- Witness for C9 at a listing with a valid README. -/
theorem readme_invariant_witness : (detect_readme [readme50]).1 = true :=
  readme_invariant [readme50] (by decide)

/-! ## Structure classification monotonicity (C8) -/

/-- The ordering basic < moderate < clean as a rank. -/
def classRank (c : String) : Nat :=
  if c = "clean" then 2 else if c = "moderate" then 1 else 0

lemma indicator_mono {p q : Prop} [Decidable p] [Decidable q] (h : p → q) :
    (if p then (1 : Nat) else 0) ≤ if q then 1 else 0 := by
  by_cases hp : p
  · have hq := h hp
    simp [hp, hq]
  · by_cases hq : q <;> simp [hp, hq]

lemma classRank_detect (files : List SrcFile) :
    classRank (detect_structure files) =
      if structScore files ≥ 3 then 2
      else if structScore files = 2 then 1 else 0 := by
  by_cases h3 : structScore files ≥ 3
  · simp only [detect_structure, if_pos h3]
    decide
  · by_cases h2 : structScore files = 2
    · simp only [detect_structure, if_neg h3, if_pos h2]
      decide
    · simp only [detect_structure, if_neg h3, if_neg h2]
      decide

/-- C8: structure classification is monotonic — if every one of the four
signals (src/tests/docs first-level directory present, more than 10 files)
that holds for listing `L` also holds for listing `L'`, the class of `L'` is
at least the class of `L` in the ordering basic < moderate < clean.  Turning
any single signal from false to true is the special case where the other
three signals are unchanged. -/
theorem structure_monotonic (L L' : List SrcFile)
    (h1 : (topDirs L).contains "src" = true → (topDirs L').contains "src" = true)
    (h2 : (topDirs L).contains "tests" = true → (topDirs L').contains "tests" = true)
    (h3 : (topDirs L).contains "docs" = true → (topDirs L').contains "docs" = true)
    (h4 : L.length > 10 → L'.length > 10) :
    classRank (detect_structure L) ≤ classRank (detect_structure L') := by
  have hs : structScore L ≤ structScore L' := by
    unfold structScore
    exact Nat.add_le_add
      (Nat.add_le_add
        (Nat.add_le_add (indicator_mono h1) (indicator_mono h2))
        (indicator_mono h3))
      (indicator_mono h4)
  rw [classRank_detect, classRank_detect]
  split_ifs <;> omega

/-- Witness for C8: the empty listing (basic) against a listing with src,
tests and docs directories and more than 10 files (clean). -/
theorem structure_monotonic_witness :
    classRank (detect_structure []) ≤ classRank (detect_structure
      ([⟨["src"], "a", none⟩, ⟨["tests"], "b", none⟩, ⟨["docs"], "c", none⟩] ++
        List.replicate 8 (⟨[], "f", none⟩ : SrcFile))) :=
  structure_monotonic _ _ (by decide) (by decide) (by decide) (by decide)

/-! ## Generative feedback generator (C1) -/

/-- C1: the generative feedback generator (modelled from the spec, §4.3) is
total by its type — it returns an `Assessment` for every input — and: with no
credential configured it attempts no network call and returns exactly the
deterministic generator's result; a transport error of the generative call,
or a parse failure of the response, degrades to the deterministic result
instead of propagating. -/
theorem generative_total_availability (token : String)
    (net : Except TransportErr String) (a : Analysis) :
    (token = "" → generate_feedback token net a = (fallback_feedback a, false)) ∧
    (∀ e, net = .error e → (generate_feedback token net a).1 = fallback_feedback a) ∧
    (∀ text, net = .ok text → parse_llm text = none →
      (generate_feedback token net a).1 = fallback_feedback a) := by
  refine ⟨fun h => by simp [generate_feedback, h], ?_, ?_⟩
  · intro e he
    by_cases h : token = ""
    · simp [generate_feedback, h]
    · simp [generate_feedback, h, he]
  · intro text ht hp
    by_cases h : token = ""
    · simp [generate_feedback, h]
    · simp [generate_feedback, h, ht, hp]

/-- Witness for C1: no credential, a transport error, and an unparsable
response, each at a concrete input. -/
theorem generative_total_availability_witness :
    generate_feedback "" (.ok "junk") ⟨0, "basic", false, false, false, 3, 0, "X"⟩ =
      (fallback_feedback ⟨0, "basic", false, false, false, 3, 0, "X"⟩, false) ∧
    (generate_feedback "tok" (.error .timeout)
        ⟨0, "basic", false, false, false, 3, 0, "X"⟩).1 =
      fallback_feedback ⟨0, "basic", false, false, false, 3, 0, "X"⟩ ∧
    (generate_feedback "tok" (.ok "no labels")
        ⟨0, "basic", false, false, false, 3, 0, "X"⟩).1 =
      fallback_feedback ⟨0, "basic", false, false, false, 3, 0, "X"⟩ :=
  ⟨(generative_total_availability "" (.ok "junk") _).1 rfl,
   (generative_total_availability "tok" (.error .timeout) _).2.1 .timeout rfl,
   (generative_total_availability "tok" (.ok "no labels") _).2.2 "no labels" rfl rfl⟩

end RepoLens
